import Mathlib

/-!
Verification of `utils/omit-needless-words.py`, a job-dispatch utility that
invokes an external introspection tool to dump module interfaces for a list
of SDKs.  The script is shallowly embedded below: external processes are
modelled by an `Env` oracle giving each query's exit code and output, and the
script's observable behaviour is modelled as the list of `Action`s it
performs (commands run, directories created, files written, diagnostics
printed, the scratch file touched and removed).
-/

namespace OmitNeedlessWords

/-- Whitespace characters recognised by the Python regex class `\s`
(and by `str.rstrip()` with no arguments). -/
def isWsChar (c : Char) : Bool :=
  c = ' ' || c = '\t' || c = '\n' || c = '\r' || c = '\x0b' || c = '\x0c'

/-- Characters of the regex class `[A-Za-z_0-9.]` used both by the submodule
matcher and by the framework-bundle matcher. -/
def isIdentDotChar (c : Char) : Bool :=
  ('A' ≤ c && c ≤ 'Z') || ('a' ≤ c && c ≤ 'z') || ('0' ≤ c && c ≤ '9') ||
    c = '_' || c = '.'

/-- The static SDK-to-target table `DEFAULT_TARGET_BASED_ON_SDK` of the
script (lines 15-23); `none` models a missing key (a Python `KeyError` on
subscript). -/
def DEFAULT_TARGET_BASED_ON_SDK : String → Option String
  | "macosx" => some "x86_64-apple-macosx10.11"
  | "iphoneos" => some "arm64-apple-ios9.0"
  | "iphonesimulator" => some "x86_64-apple-ios9.0"
  | "watchos" => some "armv7k-apple-watchos2.0"
  | "watchos.simulator" => some "i386-apple-watchos2.0"
  | "appletvos" => some "arm64-apple-tvos9"
  | "appletvos.simulator" => some "x86_64-apple-tvos9"
  | _ => none

/-- The fixed deny-list `SKIPPED_FRAMEWORKS` of the script (lines 25-46). -/
def SKIPPED_FRAMEWORKS : List String :=
  ["CalendarStore", "CoreMIDIServer", "DrawSprocket", "DVComponentGlue",
   "InstallerPlugins", "InstantMessage", "JavaFrameEmbedding", "JavaVM",
   "Kerberos", "Kernel", "LDAP", "Message", "PCSC", "QTKit", "Ruby",
   "SyncServices", "System", "Tk", "VideoDecodeAcceleration", "vecLib"]

/-- Positional match of the interpolated module name against the head of a
text.  Line 83 splices the module name into the regex unescaped, so a dot
in the module name is the regex wildcard and matches any single character,
while every other character of the `[A-Za-z_0-9.]` alphabet (the alphabet
of every discoverable module name, line 148) is a literal.  A module name
holding a regex metacharacter other than the dot is expressible only
through the -m flag and is outside this model. -/
def modPatMatches : List Char → List Char → Bool
  | [], _ => true
  | _ :: _, [] => false
  | p :: ps, c :: cs => (p = '.' || p = c) && modPatMatches ps cs

/-- Backtracking of the regex tail `\s+M\.([A-Za-z_0-9.]+)` after the
literal "import": the whitespace-run length is tried greedily from `k`
(called with the maximal run length) down to 1, as the regex engine does;
at the first length where the interpolated module pattern, a literal dot
and a non-empty greedy `[A-Za-z_0-9.]` run follow, that run is the
captured group. -/
def matchTailWs (M : List Char) (rest : List Char) : Nat → Option (List Char)
  | 0 => none
  | Nat.succ k =>
    if modPatMatches M (rest.drop (k + 1)) then
      match (rest.drop (k + 1)).drop M.length with
      | [] => matchTailWs M rest k
      | c :: after =>
        if c = '.' then
          if (after.takeWhile isIdentDotChar).isEmpty then matchTailWs M rest k
          else some (after.takeWhile isIdentDotChar)
        else matchTailWs M rest k
    else matchTailWs M rest k

/-- Matching of the tail `import\s+M\.([A-Za-z_0-9.]+)` of the submodule
regex (line 83) at the head of `l`: the literal word "import", then a
non-empty whitespace run (longest first, backtracking), then the
interpolated module pattern (dots in `M` are wildcards), a literal dot,
and a non-empty maximal greedy run of `[A-Za-z_0-9.]` characters, which is
the captured group. -/
def matchTail (M : List Char) (l : List Char) : Option (List Char) :=
  if ("import".toList).isPrefixOf l then
    matchTailWs M (l.drop 6) (((l.drop 6).takeWhile isWsChar).length)
  else none

/-- Semantics of `re.match('.*import\s+M\.([A-Za-z_0-9.]+)', line)`: because
of the greedy leading `.*`, the pattern tail is matched at the rightmost
position of the line where it succeeds (the regex engine backtracks from the
end), and the captured group of that rightmost match is returned. -/
def findImport (M : List Char) : List Char → Option (List Char)
  | [] => none
  | c :: rest =>
    match findImport M rest with
    | some cap => some cap
    | none => matchTail M (c :: rest)

/-- Captured submodule name (if any) that a single output line contributes
in `collect_submodules` (lines 85-88).  Faithful to the Python regex for
every module name over the `[A-Za-z_0-9.]` alphabet, whose only regex
metacharacter is the dot, modelled as a wildcard in `modPatMatches`. -/
def capture_import (module : String) (line : List Char) : Option String :=
  (findImport module.toList line).map (fun cs => String.mk cs)

/-- Normalisation step of Python `splitlines`: a CRLF pair counts as a
single line boundary. -/
def normEol : List Char → List Char
  | [] => []
  | '\r' :: '\n' :: rest => '\n' :: normEol rest
  | c :: rest => c :: normEol rest

/-- Splitting on the single-character line boundaries LF and CR. -/
def splitOnEol (cur : List Char) : List Char → List (List Char)
  | [] => [cur.reverse]
  | c :: rest =>
    if c = '\n' || c = '\r' then cur.reverse :: splitOnEol [] rest
    else splitOnEol (c :: cur) rest

/-- Python 2 `str.splitlines()`: splits on LF, CR and CRLF and produces no
trailing empty line when the text ends with a line boundary. -/
def pySplitlines (s : List Char) : List (List Char) :=
  if s.isEmpty then []
  else
    let n := normEol s
    let chunks := splitOnEol [] n
    match n.getLast? with
    | some c => if c = '\n' || c = '\r' then chunks.dropLast else chunks
    | none => chunks

/-- Parsing phase of `collect_submodules` (lines 82-90): each output line
contributes its captured submodule name (if any) to a set, and the set is
returned sorted lexicographically.  The Python `set` plus `sorted` is
modelled by `dedup` plus `insertionSort`. -/
def collect_submodules_parse (module : String) (out : String) : List String :=
  List.insertionSort (fun a b => a ≤ b)
    (((pySplitlines out.toList).filterMap (capture_import module)).dedup)

/-- Greedy matching of `re.match('([A-Za-z_0-9.]+)\.framework', entry)`
(line 148), trying group lengths from `n` downwards: the group is the
longest non-empty run of `[A-Za-z_0-9.]` characters at the start of the
entry that is immediately followed by the literal text ".framework"
(anything may follow, since `match` only anchors at the start). -/
def tryFrameworkLen (entry : List Char) : Nat → Option (List Char)
  | 0 => none
  | Nat.succ n =>
    if (entry.take (n + 1)).all isIdentDotChar
        && (".framework".toList).isPrefixOf (entry.drop (n + 1)) then
      some (entry.take (n + 1))
    else tryFrameworkLen entry n

/-- Framework name captured from one directory entry (lines 148-153). -/
def framework_match (entry : String) : Option String :=
  (tryFrameworkLen entry.toList entry.toList.length).map (fun cs => String.mk cs)

/-- Contribution of one directory entry to the framework set (lines
150-155): the captured name, unless it is deny-listed or the entry does not
match the bundle pattern. -/
def framework_keep (entry : String) : Option String :=
  match framework_match entry with
  | some f => if f ∈ SKIPPED_FRAMEWORKS then none else some f
  | none => none

/-- Framework set built from a directory listing (lines 146-157): matching
entries minus the deny-list, deduplicated and sorted lexicographically. -/
def frameworks_from_entries (entries : List String) : List String :=
  List.insertionSort (fun a b => a ≤ b) ((entries.filterMap framework_keep).dedup)

/-- Prefix test on strings, written on the character lists so that it
evaluates by kernel reduction. -/
def str_startsWith (s p : String) : Bool :=
  p.toList.isPrefixOf s.toList

/-- Function `pretty_sdk_name` (lines 119-128).  Python tests
`sdk.find(p) == 0`, i.e. whether `p` occurs at position 0, which is exactly
a prefix test. -/
def pretty_sdk_name (sdk : String) : String :=
  if str_startsWith sdk "macosx" then "OSX"
  else if str_startsWith sdk "iphoneos" then "iOS"
  else if str_startsWith sdk "watchos" then "watchOS"
  else if str_startsWith sdk "appletvos" then "tvOS"
  else "unknownOS"

/-- Python `str.rstrip()` with no arguments: remove trailing whitespace. -/
def rstrip (s : String) : String :=
  String.mk ((s.toList.reverse.dropWhile isWsChar).reverse)

/-- Target resolution of `create_dump_module_api_args` (lines 164-168): a
truthy (non-empty) explicit target wins, otherwise the static table is
subscripted; `none` models the uncaught `KeyError` of a lookup miss. -/
def resolve_sdk_target (sdk target : String) : Option String :=
  if target ≠ "" then some target else DEFAULT_TARGET_BASED_ON_SDK sdk

/-- Oracle for the external world: each field gives, for a query, the exit
code and captured standard output of the spawned process (the script ignores
captured stderr everywhere, so it is not modelled), or a directory listing. -/
structure Env where
  showSdkPath : String → Int × String
  showSdkVersion : String → Int × String
  listdir : String → List String
  submodPrint : List String → Int × String

/-- Job descriptor: the tuple `(cmd, extra_dump_args, output_dir, module,
quiet)` passed to `dump_module_api` (lines 93, 178, 181). -/
structure Job where
  cmd : List String
  extra_args : List String
  output_dir : String
  module : String
  quiet : Bool
deriving DecidableEq

/-- Observable effects of the script: spawned commands, created directories,
files written by redirecting a command's stdout, printed diagnostics, and
the scratch-file touch/remove. -/
inductive Action where
  | touch (f : String)
  | mkdirp (d : String)
  | writeFile (f : String) (cmd : List String)
  | runCmd (cmd : List String)
  | report (msg : String)
  | rm (f : String)
deriving DecidableEq

/-- Command of the SDK-path query (line 132). -/
def xcrun_path_cmd (sdk : String) : List String :=
  ["xcrun", "--show-sdk-path", "-sdk", sdk]

/-- Command of the SDK-version query (line 138). -/
def xcrun_version_cmd (sdk : String) : List String :=
  ["xcrun", "--show-sdk-version", "-sdk", sdk]

/-- Result of `collect_frameworks` (lines 131-157): the Python function
returns the empty tuple `()` on a failed SDK query and a pair
`(frameworks, sdk_path)` on success; `failure` models `()`. -/
inductive CollectResult where
  | failure
  | ok (frameworks : List String) (sdk_path : String)
deriving DecidableEq

/-- Function `collect_frameworks` (lines 131-157), paired with the trace of
the external queries it performs and the diagnostics it prints. -/
def collect_frameworks_tr (env : Env) (sdk : String) : CollectResult × List Action :=
  if (env.showSdkPath sdk).1 ≠ 0 then
    (CollectResult.failure,
      [Action.runCmd (xcrun_path_cmd sdk),
       Action.report "error: framework collection failed"])
  else if (env.showSdkVersion sdk).1 ≠ 0 then
    (CollectResult.failure,
      [Action.runCmd (xcrun_path_cmd sdk), Action.runCmd (xcrun_version_cmd sdk),
       Action.report "error: framework collection failed"])
  else
    (CollectResult.ok
        (frameworks_from_entries
          (env.listdir (rstrip (env.showSdkPath sdk).2 ++ "/System/Library/Frameworks")))
        (rstrip (env.showSdkPath sdk).2),
      [Action.runCmd (xcrun_path_cmd sdk), Action.runCmd (xcrun_version_cmd sdk),
       Action.report "Collecting frameworks"])

/-- Extra arguments of the submodule-discovery invocation (line 76). -/
def submodule_query_args (module : String) : List String :=
  ["-module-print-submodules", "-module-to-print=" ++ module]

/-- Submodule list computed by `collect_submodules` as called from
`dump_module_api` (lines 74-90, 95): on a non-zero exit of the discovery
invocation the result is empty (Python returns `()`), otherwise the parsed,
deduplicated, sorted list. -/
def job_submodules (env : Env) (job : Job) : List String :=
  if (env.submodPrint (job.cmd ++ submodule_query_args job.module)).1 ≠ 0 then []
  else
    collect_submodules_parse job.module
      (env.submodPrint (job.cmd ++ submodule_query_args job.module)).2

/-- Function `dump_module_api` (lines 93-117) as the list of effects it
performs: the submodule-discovery invocation (plus its diagnostic on
failure), the `mkdir -p` of the per-module directory, the top-level module
dump redirected to `<output_dir>/<module>/<module>.swift`, then one dump per
discovered submodule redirected to `<output_dir>/<module>/<submodule>.swift`.
The non-quiet progress prints do not affect any claim and are not
modelled. -/
def dump_module_api_actions (env : Env) (job : Job) : List Action :=
  [Action.runCmd (job.cmd ++ submodule_query_args job.module)]
  ++ (if (env.submodPrint (job.cmd ++ submodule_query_args job.module)).1 ≠ 0 then
        [Action.report "error: submodule collection failed"]
      else [])
  ++ [Action.mkdirp (job.output_dir ++ "/" ++ job.module),
      Action.writeFile (job.output_dir ++ "/" ++ job.module ++ "/" ++ job.module ++ ".swift")
        (job.cmd ++ job.extra_args ++ ["-module-to-print=" ++ job.module])]
  ++ (job_submodules env job).map (fun s =>
      Action.writeFile (job.output_dir ++ "/" ++ job.module ++ "/" ++ s ++ ".swift")
        (job.cmd ++ job.extra_args ++ ["-module-to-print=" ++ job.module ++ "." ++ s]))

/-- Job-list construction of `create_dump_module_api_args` from the result
of `collect_frameworks` (lines 162-183).  A `CollectResult.failure` crashes
the caller: Python unpacks the empty tuple into `(frameworks, sdk_root)`,
raising `ValueError`; a table miss with no truthy override raises
`KeyError`.  Both uncaught exceptions are modelled as `Except.error`. -/
def create_jobs_from_collect (cc ea : List String) (sdk module target output_dir : String)
    (quiet : Bool) : CollectResult → Except String (List Job)
  | CollectResult.failure =>
    Except.error "ValueError: need more than 0 values to unpack"
  | CollectResult.ok frameworks sdk_root =>
    match resolve_sdk_target sdk target with
    | none => Except.error "KeyError"
    | some sdk_target =>
      let sdk_output_dir := output_dir ++ "/" ++ pretty_sdk_name sdk
      let cmd := cc ++ ["-sdk", sdk_root, "-target", sdk_target]
      if module ≠ "" then
        Except.ok [⟨cmd, ea, sdk_output_dir, module, quiet⟩]
      else
        Except.ok (frameworks.map (fun f => ⟨cmd, ea, sdk_output_dir, f, quiet⟩))

/-- Function `create_dump_module_api_args` (lines 159-183): always queries
`collect_frameworks` first (line 162), then builds the job list; paired with
the trace of the external queries performed.  The `source_filename`
parameter is accepted and unused, exactly as in the source. -/
def create_dump_module_api_args (env : Env) (cc ea : List String)
    (sdk module target source_filename output_dir : String) (quiet : Bool) :
    Except String (List Job) × List Action :=
  (create_jobs_from_collect cc ea sdk module target output_dir quiet
      (collect_frameworks_tr env sdk).1,
   (collect_frameworks_tr env sdk).2)

/-- The job-construction loop of `main` (lines 201-203): SDKs are processed
in the given order and the per-SDK job lists are concatenated; an uncaught
exception from any SDK propagates and aborts the whole construction. -/
def build_jobs_tr (env : Env) (cc ea : List String)
    (module target src out : String) (quiet : Bool) :
    List String → Except String (List Job) × List Action
  | [] => (Except.ok [], [])
  | sdk :: rest =>
    match (create_dump_module_api_args env cc ea sdk module target src out quiet).1 with
    | Except.error e =>
      (Except.error e, (create_dump_module_api_args env cc ea sdk module target src out quiet).2)
    | Except.ok js =>
      (Except.map (fun more => js ++ more)
          (build_jobs_tr env cc ea module target src out quiet rest).1,
        (create_dump_module_api_args env cc ea sdk module target src out quiet).2
          ++ (build_jobs_tr env cc ea module target src out quiet rest).2)

/-- Scratch source file created by `main` (line 186). -/
def source_filename : String := "omit-needless-words.swift"

/-- The common command `cmd_common` of `main` (line 190). -/
def cmd_common_args (ide src : String) : List String :=
  [ide, "-print-module", "-source-filename", src, "-module-print-skip-overlay",
   "-skip-unavailable", "-skip-print-doc-comments"]

/-- The extra arguments of `main` (lines 193-195). -/
def extra_args_for (swift3 : Bool) : List String :=
  ["-skip-imports"]
  ++ (if swift3 then
        ["-enable-omit-needless-words", "-enable-infer-default-arguments",
         "-enable-strip-ns-prefix"]
      else [])

/-- Function `main` (lines 185-210) as its list of effects plus a flag that
is `true` when the run aborted with an uncaught exception during job
construction: touch the scratch file, construct the jobs (issuing the
per-SDK discovery queries), execute every job, then remove the scratch
file.  On an uncaught exception the scratch file is never removed and no
job runs.  The worker pool runs jobs without ordering guarantees; the
effects are modelled in dispatch order, which no claim distinguishes. -/
def main_actions (env : Env) (ide : String) (swift3 : Bool) (sdks : List String)
    (module target output_dir : String) (quiet : Bool) : List Action × Bool :=
  match (build_jobs_tr env (cmd_common_args ide source_filename) (extra_args_for swift3)
      module target source_filename output_dir quiet sdks).1 with
  | Except.error _ =>
    (Action.touch source_filename
        :: (build_jobs_tr env (cmd_common_args ide source_filename) (extra_args_for swift3)
            module target source_filename output_dir quiet sdks).2,
      true)
  | Except.ok jobs =>
    ((Action.touch source_filename
        :: ((build_jobs_tr env (cmd_common_args ide source_filename) (extra_args_for swift3)
              module target source_filename output_dir quiet sdks).2
            ++ jobs.flatMap (dump_module_api_actions env)))
      ++ [Action.rm source_filename], false)

/-- Files written (stdout redirection targets) among a list of effects. -/
def writtenFiles : List Action → List String
  | [] => []
  | Action.writeFile f _ :: rest => f :: writtenFiles rest
  | _ :: rest => writtenFiles rest

/-- Modelled from the spec: the spec's description of submodule matching,
"lines of the form import `<module>.<submodule-path>` anchored at line
start", i.e. the same structural pattern as the code's but required to
begin at the first character of the line. -/
def anchored_import_capture (module : String) (line : List Char) : Option String :=
  (matchTail module.toList line).map (fun cs => String.mk cs)

/-- Sample environment used to instantiate theorems with hypotheses: every
SDK query succeeds, the framework directory holds one dumpable framework,
one deny-listed framework and a stray file, and submodule discovery fails. -/
def env0 : Env where
  showSdkPath := fun _ => (0, "/SDKs/X.sdk\n")
  showSdkVersion := fun _ => (0, "10.11\n")
  listdir := fun _ => ["Foo.framework", "System.framework", "README"]
  submodPrint := fun _ => (1, "")

/-- Sample environment in which the SDK-path query exits non-zero. -/
def envFail : Env where
  showSdkPath := fun _ => (1, "")
  showSdkVersion := fun _ => (0, "10.11\n")
  listdir := fun _ => []
  submodPrint := fun _ => (1, "")

theorem writtenFiles_append (a b : List Action) :
    writtenFiles (a ++ b) = writtenFiles a ++ writtenFiles b := by
  induction a with
  | nil => rfl
  | cons x xs ih => cases x <;> simp [writtenFiles, ih]

theorem writtenFiles_map_write (l : List String) (p : String → String)
    (c : String → List String) :
    writtenFiles (l.map (fun s => Action.writeFile (p s) (c s))) = l.map p := by
  induction l with
  | nil => rfl
  | cons x xs ih => simp [writtenFiles, ih]

theorem writtenFiles_dump (env : Env) (job : Job) :
    writtenFiles (dump_module_api_actions env job)
      = (job.output_dir ++ "/" ++ job.module ++ "/" ++ job.module ++ ".swift")
        :: (job_submodules env job).map
            (fun s => job.output_dir ++ "/" ++ job.module ++ "/" ++ s ++ ".swift") := by
  unfold dump_module_api_actions
  rw [writtenFiles_append, writtenFiles_append, writtenFiles_append,
    writtenFiles_map_write]
  split <;> rfl

theorem collect_tr_head (env : Env) (sdk : String) :
    (collect_frameworks_tr env sdk).2.head? = some (Action.runCmd (xcrun_path_cmd sdk)) := by
  unfold collect_frameworks_tr
  split
  · rfl
  · split <;> rfl

theorem collect_tr_shape (env : Env) (sdk : String) :
    ∀ a ∈ (collect_frameworks_tr env sdk).2,
      a = Action.runCmd (xcrun_path_cmd sdk) ∨ a = Action.runCmd (xcrun_version_cmd sdk)
        ∨ ∃ m, a = Action.report m := by
  intro a ha
  unfold collect_frameworks_tr at ha
  split at ha
  · simp only [List.mem_cons, List.mem_singleton, List.not_mem_nil, or_false] at ha
    rcases ha with h | h
    · exact Or.inl h
    · exact Or.inr (Or.inr ⟨_, h⟩)
  · split at ha <;>
    · simp only [List.mem_cons, List.mem_singleton, List.not_mem_nil, or_false] at ha
      rcases ha with h | h | h
      · exact Or.inl h
      · exact Or.inr (Or.inl h)
      · exact Or.inr (Or.inr ⟨_, h⟩)

theorem collect_ok_shape (env : Env) (sdk : String)
    (hp : (env.showSdkPath sdk).1 = 0) (hv : (env.showSdkVersion sdk).1 = 0) :
    (collect_frameworks_tr env sdk).1
      = CollectResult.ok
          (frameworks_from_entries
            (env.listdir (rstrip (env.showSdkPath sdk).2 ++ "/System/Library/Frameworks")))
          (rstrip (env.showSdkPath sdk).2) := by
  unfold collect_frameworks_tr
  simp [hp, hv]

theorem framework_keep_some (e n : String) (h : framework_keep e = some n) :
    framework_match e = some n ∧ n ∉ SKIPPED_FRAMEWORKS := by
  unfold framework_keep at h
  rcases hm : framework_match e with _ | f <;> simp only [hm] at h
  · cases h
  · by_cases hf : f ∈ SKIPPED_FRAMEWORKS
    · rw [if_pos hf] at h
      cases h
    · rw [if_neg hf] at h
      rw [Option.some_inj] at h
      subst h
      exact ⟨rfl, hf⟩

theorem create_jobs_shape (cc ea : List String) (sdk module tgt out : String) (q : Bool)
    (res : CollectResult) (jobs : List Job)
    (hc : create_jobs_from_collect cc ea sdk module tgt out q res = Except.ok jobs)
    (job : Job) (hj : job ∈ jobs) :
    (∃ root st, job.cmd = cc ++ ["-sdk", root, "-target", st])
      ∧ job.extra_args = ea
      ∧ job.output_dir = out ++ "/" ++ pretty_sdk_name sdk := by
  cases res with
  | failure => cases hc
  | ok fs root =>
    unfold create_jobs_from_collect at hc
    rcases hr : resolve_sdk_target sdk tgt with _ | st <;> simp only [hr] at hc
    · cases hc
    · by_cases hm : module ≠ ""
      · rw [if_pos hm] at hc
        rw [Except.ok.injEq] at hc
        subst hc
        rw [List.mem_singleton] at hj
        subst hj
        exact ⟨⟨root, st, rfl⟩, rfl, rfl⟩
      · rw [if_neg hm] at hc
        rw [Except.ok.injEq] at hc
        subst hc
        rw [List.mem_map] at hj
        obtain ⟨f, _, hf⟩ := hj
        subst hf
        exact ⟨⟨root, st, rfl⟩, rfl, rfl⟩

theorem build_ok_job_shape (env : Env) (cc ea : List String)
    (module tgt src out : String) (q : Bool) :
    ∀ (sdks : List String) (jobs : List Job),
      (build_jobs_tr env cc ea module tgt src out q sdks).1 = Except.ok jobs →
      ∀ job ∈ jobs,
        (∃ root st, job.cmd = cc ++ ["-sdk", root, "-target", st])
          ∧ job.extra_args = ea
          ∧ ∃ sdk ∈ sdks, job.output_dir = out ++ "/" ++ pretty_sdk_name sdk := by
  intro sdks
  induction sdks with
  | nil =>
    intro jobs h job hj
    cases h
    cases hj
  | cons sdk rest ih =>
    intro jobs h job hj
    unfold build_jobs_tr at h
    rcases hc : (create_dump_module_api_args env cc ea sdk module tgt src out q).1
        with e | js <;> simp only [hc] at h
    · cases h
    · rcases hr : (build_jobs_tr env cc ea module tgt src out q rest).1
          with e2 | more <;> simp only [hr, Except.map] at h
      · cases h
      · rw [Except.ok.injEq] at h
        subst h
        rcases List.mem_append.mp hj with hj1 | hj2
        · have := create_jobs_shape cc ea sdk module tgt out q
            (collect_frameworks_tr env sdk).1 js hc job hj1
          exact ⟨this.1, this.2.1, sdk, List.mem_cons_self sdk rest, this.2.2⟩
        · obtain ⟨h1, h2, s, hs, h3⟩ := ih more hr job hj2
          exact ⟨h1, h2, s, List.mem_cons_of_mem sdk hs, h3⟩

theorem build_tr_shape (env : Env) (cc ea : List String)
    (module tgt src out : String) (q : Bool) :
    ∀ (sdks : List String), ∀ a ∈ (build_jobs_tr env cc ea module tgt src out q sdks).2,
      (∃ sdk ∈ sdks,
          a = Action.runCmd (xcrun_path_cmd sdk) ∨ a = Action.runCmd (xcrun_version_cmd sdk))
        ∨ ∃ m, a = Action.report m := by
  intro sdks
  induction sdks with
  | nil => intro a ha; cases ha
  | cons sdk rest ih =>
    intro a ha
    unfold build_jobs_tr at ha
    have hmem : a ∈ (collect_frameworks_tr env sdk).2
        ∨ a ∈ (build_jobs_tr env cc ea module tgt src out q rest).2 := by
      rcases hc : (create_dump_module_api_args env cc ea sdk module tgt src out q).1
          with e | js <;> simp only [hc] at ha
      · exact Or.inl ha
      · exact List.mem_append.mp ha
    rcases hmem with h1 | h2
    · rcases collect_tr_shape env sdk a h1 with h | h | h
      · exact Or.inl ⟨sdk, List.mem_cons_self sdk rest, Or.inl h⟩
      · exact Or.inl ⟨sdk, List.mem_cons_self sdk rest, Or.inr h⟩
      · exact Or.inr h
    · rcases ih a h2 with ⟨s, hs, h⟩ | h
      · exact Or.inl ⟨s, List.mem_cons_of_mem sdk hs, h⟩
      · exact Or.inr h

theorem build_unmapped_error (env : Env) (cc ea : List String)
    (module src out : String) (q : Bool) :
    ∀ (sdks : List String) (s : String), s ∈ sdks →
      DEFAULT_TARGET_BASED_ON_SDK s = none →
      (env.showSdkPath s).1 = 0 → (env.showSdkVersion s).1 = 0 →
      ∃ e, (build_jobs_tr env cc ea module "" src out q sdks).1 = Except.error e := by
  intro sdks
  induction sdks with
  | nil => intro s hs; cases hs
  | cons sdk rest ih =>
    intro s hs hmap hp hv
    unfold build_jobs_tr
    rcases hc : (create_dump_module_api_args env cc ea sdk module "" src out q).1
        with e | js <;> simp only [hc]
    · exact ⟨e, rfl⟩
    · rcases List.mem_cons.mp hs with hseq | hsrest
      · subst hseq
        exfalso
        unfold create_dump_module_api_args at hc
        rw [collect_ok_shape env s hp hv] at hc
        unfold create_jobs_from_collect at hc
        have hres : resolve_sdk_target s "" = none := by
          unfold resolve_sdk_target
          simp [hmap]
        rw [hres] at hc
        cases hc
      · obtain ⟨e2, he2⟩ := ih s hsrest hmap hp hv
        refine ⟨e2, ?_⟩
        simp only [he2, Except.map]

theorem dump_actions_shape (env : Env) (job : Job) :
    ∀ a ∈ dump_module_api_actions env job,
      a = Action.runCmd (job.cmd ++ submodule_query_args job.module)
        ∨ (∃ m, a = Action.report m)
        ∨ a = Action.mkdirp (job.output_dir ++ "/" ++ job.module)
        ∨ ∃ name extra,
            a = Action.writeFile
              (job.output_dir ++ "/" ++ job.module ++ "/" ++ name ++ ".swift")
              (job.cmd ++ job.extra_args ++ extra) := by
  intro a ha
  unfold dump_module_api_actions at ha
  rcases List.mem_append.mp ha with h123 | hmap
  · rcases List.mem_append.mp h123 with h12 | h3
    · rcases List.mem_append.mp h12 with h1 | h2
      · exact Or.inl (List.mem_singleton.mp h1)
      · by_cases hcond : (env.submodPrint (job.cmd ++ submodule_query_args job.module)).1 ≠ 0
        · rw [if_pos hcond] at h2
          exact Or.inr (Or.inl ⟨_, List.mem_singleton.mp h2⟩)
        · rw [if_neg hcond] at h2
          cases h2
    · rcases List.mem_cons.mp h3 with h | h
      · exact Or.inr (Or.inr (Or.inl h))
      · exact Or.inr (Or.inr (Or.inr ⟨job.module, _, List.mem_singleton.mp h⟩))
  · obtain ⟨s, _, heq⟩ := List.mem_map.mp hmap
    exact Or.inr (Or.inr (Or.inr ⟨s, _, heq.symm⟩))

/-- Claim C4, counterexample to "anchored at the start of the line": the
line "xx import M.Sub" does not begin with an import of M, yet the code's
matcher (leading greedy wildcard, line 83) extracts "Sub" from it, and the
parser returns it as a submodule of M. -/
theorem C4_counterexample :
    collect_submodules_parse "M" "xx import M.Sub" = ["Sub"]
      ∧ capture_import "M" ("xx import M.Sub".toList) = some "Sub"
      ∧ anchored_import_capture "M" ("xx import M.Sub".toList) = none :=
  ⟨by rfl, by rfl, by rfl⟩

/-- Claim C4 (amended): for every module name over the `[A-Za-z_0-9.]`
alphabet (the alphabet of every discoverable module name; a dot in it is a
wildcard in the pattern, since the name is interpolated into the regex
unescaped) and every submodule-discovery output, the parsed result is
sorted lexicographically, duplicate-free, and a name is in it exactly when
some output line contains (anywhere in the line, arbitrary text may
precede it) the pattern of an import of a submodule of the module; all
other lines contribute nothing and raise no error. -/
theorem C4_submodule_parse (module out : String)
    (hm : module.toList.all isIdentDotChar = true) :
    List.Sorted (fun a b => a ≤ b) (collect_submodules_parse module out)
      ∧ (collect_submodules_parse module out).Nodup
      ∧ ∀ s : String, s ∈ collect_submodules_parse module out
          ↔ ∃ l, l ∈ pySplitlines out.toList ∧ capture_import module l = some s := by
  refine ⟨List.sorted_insertionSort _ _,
    ((List.perm_insertionSort _ _).nodup_iff).mpr (List.nodup_dedup _), ?_⟩
  intro s
  unfold collect_submodules_parse
  rw [List.mem_insertionSort, List.mem_dedup, List.mem_filterMap]

/-- Witness for C4's theorem at a concrete output text, with a dotted
module name whose dot matches the X of the import line as the regex
wildcard does. -/
theorem C4_submodule_parse_witness :
    ("Foo.bar".toList.all isIdentDotChar = true)
      ∧ "Sub" ∈ collect_submodules_parse "Foo.bar" "import FooXbar.Sub" :=
  ⟨by decide,
   ((C4_submodule_parse "Foo.bar" "import FooXbar.Sub" (by decide)).2.2 "Sub").mpr
     ⟨"import FooXbar.Sub".toList, by decide, by decide⟩⟩

/-- Claim C5: an SDK with a table entry and no (empty) override resolves to
the table's entry, and a non-empty explicit override always wins, whatever
the table holds. -/
theorem C5_resolve_target (sdk t d : String) :
    (DEFAULT_TARGET_BASED_ON_SDK sdk = some d → resolve_sdk_target sdk "" = some d)
      ∧ (t ≠ "" → resolve_sdk_target sdk t = some t) := by
  constructor
  · intro h
    unfold resolve_sdk_target
    simp [h]
  · intro h
    unfold resolve_sdk_target
    rw [if_pos h]

/-- Witness for C5's theorem: the macosx table entry, and an override on an
SDK that does have a (different) table entry. -/
theorem C5_resolve_target_witness :
    resolve_sdk_target "macosx" "" = some "x86_64-apple-macosx10.11"
      ∧ resolve_sdk_target "iphoneos" "custom-triple" = some "custom-triple" :=
  ⟨(C5_resolve_target "macosx" "" "x86_64-apple-macosx10.11").1 (by rfl),
   (C5_resolve_target "iphoneos" "custom-triple" "d").2 (by decide)⟩

/-- Claim C6: a framework list built from a directory listing is sorted
and duplicate-free, never contains a deny-listed name, and every name in it
is extracted from some listing entry matching the bundle pattern (the
source's pattern is anchored at the entry's start only); entries that match
nothing are skipped without error (the function is total on all listings). -/
theorem C6_collect_frameworks (entries : List String) (n : String)
    (h : n ∈ frameworks_from_entries entries) :
    List.Sorted (fun a b => a ≤ b) (frameworks_from_entries entries)
      ∧ (frameworks_from_entries entries).Nodup
      ∧ n ∉ SKIPPED_FRAMEWORKS
      ∧ ∃ e, e ∈ entries ∧ framework_match e = some n := by
  have hmem : ∃ e, e ∈ entries ∧ framework_keep e = some n := by
    unfold frameworks_from_entries at h
    rw [List.mem_insertionSort, List.mem_dedup, List.mem_filterMap] at h
    exact h
  obtain ⟨e, he, hk⟩ := hmem
  obtain ⟨hfm, hns⟩ := framework_keep_some e n hk
  refine ⟨List.sorted_insertionSort _ _,
    ((List.perm_insertionSort _ _).nodup_iff).mpr (List.nodup_dedup _), hns, e, he, hfm⟩

/-- Witness for C6's theorem: a listing with one dumpable framework, one
deny-listed framework and one stray file. -/
theorem C6_collect_frameworks_witness :
    List.Sorted (fun a b => a ≤ b)
        (frameworks_from_entries ["Foo.framework", "System.framework", "README"])
      ∧ (frameworks_from_entries ["Foo.framework", "System.framework", "README"]).Nodup
      ∧ "Foo" ∉ SKIPPED_FRAMEWORKS := by
  have h := C6_collect_frameworks ["Foo.framework", "System.framework", "README"] "Foo"
    (by decide)
  exact ⟨h.1, h.2.1, h.2.2.1⟩

/-- Claim C7: when the submodule-discovery invocation of a job exits
non-zero, the job still writes exactly one file, the top-level module dump,
and no submodule files; the failure is reported as a diagnostic, and the
job (a total function here) carries on. -/
theorem C7_submodule_failure_single_file (env : Env) (job : Job)
    (h : (env.submodPrint (job.cmd ++ submodule_query_args job.module)).1 ≠ 0) :
    writtenFiles (dump_module_api_actions env job)
      = [job.output_dir ++ "/" ++ job.module ++ "/" ++ job.module ++ ".swift"]
      ∧ Action.report "error: submodule collection failed" ∈ dump_module_api_actions env job := by
  have h2 : job_submodules env job = [] := by
    unfold job_submodules
    rw [if_pos h]
  constructor
  · rw [writtenFiles_dump, h2]
    rfl
  · simp [dump_module_api_actions, h]

/-- Witness job for C7: submodule discovery fails in `env0`. -/
def job0 : Job :=
  ⟨["swift-ide-test"], [], "out/OSX", "Foo", false⟩

/-- Witness for C7's theorem at a concrete environment and job. -/
theorem C7_submodule_failure_witness :
    writtenFiles (dump_module_api_actions env0 job0) = ["out/OSX/Foo/Foo.swift"] :=
  (C7_submodule_failure_single_file env0 job0 (by decide)).1

/-- Claim C9: any SDK string starting with none of the four known family
labels resolves to the sentinel "unknownOS"; in particular the simulator
SDK "iphonesimulator", although present in the default-target table,
resolves to "unknownOS". -/
theorem C9_pretty_name_unknown (sdk : String)
    (h1 : str_startsWith sdk "macosx" = false)
    (h2 : str_startsWith sdk "iphoneos" = false)
    (h3 : str_startsWith sdk "watchos" = false)
    (h4 : str_startsWith sdk "appletvos" = false) :
    pretty_sdk_name sdk = "unknownOS"
      ∧ pretty_sdk_name "iphonesimulator" = "unknownOS"
      ∧ DEFAULT_TARGET_BASED_ON_SDK "iphonesimulator" = some "x86_64-apple-ios9.0" := by
  refine ⟨?_, by rfl, by rfl⟩
  simp [pretty_sdk_name, h1, h2, h3, h4]

/-- Witness for C9's theorem at the simulator SDK identifier itself. -/
theorem C9_pretty_name_unknown_witness :
    pretty_sdk_name "iphonesimulator" = "unknownOS"
      ∧ DEFAULT_TARGET_BASED_ON_SDK "iphonesimulator" = some "x86_64-apple-ios9.0" := by
  have h := C9_pretty_name_unknown "iphonesimulator" (by rfl) (by rfl) (by rfl) (by rfl)
  exact ⟨h.1, h.2.2⟩

/-- The single job produced for an explicit module "AppKit" on SDK "macosx"
in the sample environment. -/
def jobC3 : Job :=
  ⟨cmd_common_args "swift-ide-test" source_filename
      ++ ["-sdk", "/SDKs/X.sdk", "-target", "x86_64-apple-macosx10.11"],
   ["-skip-imports"], "out/OSX", "AppKit", false⟩

/-- Claim C3, counterexample to "framework discovery is skipped entirely":
with an explicit module "AppKit", `create_dump_module_api_args` still issues
both SDK discovery queries (its trace is the full framework-collection
trace), even though the job list is the single explicit-module job. -/
theorem C3_counterexample :
    (create_dump_module_api_args env0 (cmd_common_args "swift-ide-test" source_filename)
        (extra_args_for false) "macosx" "AppKit" "" source_filename "out" false).2
      = [Action.runCmd (xcrun_path_cmd "macosx"), Action.runCmd (xcrun_version_cmd "macosx"),
         Action.report "Collecting frameworks"]
      ∧ (create_dump_module_api_args env0 (cmd_common_args "swift-ide-test" source_filename)
          (extra_args_for false) "macosx" "AppKit" "" source_filename "out" false).1
        = Except.ok [jobC3] :=
  ⟨by rfl, by rfl⟩

/-- Claim C3 (amended): for every SDK with a non-empty explicit module, the
framework-discovery query is still issued (the trace starts with the
SDK-path query, whose answer supplies the job's SDK root), but whenever job
construction succeeds the job list is exactly one job carrying that module
name. -/
theorem C3_explicit_module_single_job (env : Env) (cc ea : List String)
    (sdk module tgt src out : String) (q : Bool) (hm : module ≠ "") :
    ((create_dump_module_api_args env cc ea sdk module tgt src out q).2.head?
        = some (Action.runCmd (xcrun_path_cmd sdk)))
      ∧ ∀ jobs,
          (create_dump_module_api_args env cc ea sdk module tgt src out q).1 = Except.ok jobs →
          ∃ j, jobs = [j] ∧ j.module = module := by
  constructor
  · exact collect_tr_head env sdk
  · intro jobs hc
    have hc' : create_jobs_from_collect cc ea sdk module tgt out q
        (collect_frameworks_tr env sdk).1 = Except.ok jobs := hc
    rcases hres : (collect_frameworks_tr env sdk).1 with _ | ⟨fs, root⟩ <;>
      rw [hres] at hc'
    · cases hc'
    · unfold create_jobs_from_collect at hc'
      rcases hr : resolve_sdk_target sdk tgt with _ | st <;> simp only [hr] at hc'
      · cases hc'
      · rw [if_pos hm] at hc'
        rw [Except.ok.injEq] at hc'
        subst hc'
        exact ⟨_, rfl, rfl⟩

/-- Witness for C3's theorem in the sample environment. -/
theorem C3_explicit_module_single_job_witness :
    (create_dump_module_api_args env0 (cmd_common_args "swift-ide-test" source_filename)
        (extra_args_for false) "macosx" "AppKit" "" source_filename "out" false).2.head?
      = some (Action.runCmd (xcrun_path_cmd "macosx")) :=
  (C3_explicit_module_single_job env0 (cmd_common_args "swift-ide-test" source_filename)
    (extra_args_for false) "macosx" "AppKit" "" source_filename "out" false (by decide)).1

/-- Claim C8: every job built for SDK S with base output directory `out`
writes its top-level dump to `out/<PrettySDKName(S)>/<module>/<module>.swift`
and one file `out/<PrettySDKName(S)>/<module>/<N>.swift` per discovered
submodule N, in that order. -/
theorem C8_output_paths (env : Env) (cc ea : List String) (S M tgt src out : String)
    (q : Bool) (jobs : List Job)
    (hc : (create_dump_module_api_args env cc ea S M tgt src out q).1 = Except.ok jobs)
    (job : Job) (hj : job ∈ jobs) :
    writtenFiles (dump_module_api_actions env job)
      = (out ++ "/" ++ pretty_sdk_name S ++ "/" ++ job.module ++ "/" ++ job.module ++ ".swift")
        :: (job_submodules env job).map
            (fun N => out ++ "/" ++ pretty_sdk_name S ++ "/" ++ job.module ++ "/" ++ N ++ ".swift") := by
  have hshape := create_jobs_shape cc ea S M tgt out q
    (collect_frameworks_tr env S).1 jobs hc job hj
  rw [writtenFiles_dump, hshape.2.2]

/-- The single job produced for an explicit module "Foo" on SDK "macosx" in
the sample environment. -/
def job8 : Job :=
  ⟨cmd_common_args "swift-ide-test" source_filename
      ++ ["-sdk", "/SDKs/X.sdk", "-target", "x86_64-apple-macosx10.11"],
   ["-skip-imports"], "out/OSX", "Foo", false⟩

/-- Witness for C8's theorem: SDK "macosx" pretty-prints to "OSX", so the
top-level dump of module "Foo" goes to out/OSX/Foo/Foo.swift. -/
theorem C8_output_paths_witness :
    writtenFiles (dump_module_api_actions env0 job8) = ["out/OSX/Foo/Foo.swift"] := by
  have h := C8_output_paths env0 (cmd_common_args "swift-ide-test" source_filename)
    (extra_args_for false) "macosx" "Foo" "" source_filename "out" false [job8] (by rfl)
    job8 (List.mem_singleton.mpr rfl)
  rw [h]
  rfl

/-- Claim C1, counterexample to "every other SDK continues unaffected": with
SDK list ["macosx", "xros"] (the second unmapped, both SDK queries
succeeding) the run aborts during job construction and writes no file at
all, whereas with ["macosx"] alone it writes macosx's dump; so the unmapped
SDK does abort the processing of the other SDK. -/
theorem C1_counterexample :
    (main_actions env0 "swift-ide-test" false ["macosx", "xros"] "" "" "out" false).2 = true
      ∧ writtenFiles
          (main_actions env0 "swift-ide-test" false ["macosx", "xros"] "" "" "out" false).1 = []
      ∧ writtenFiles
          (main_actions env0 "swift-ide-test" false ["macosx"] "" "" "out" false).1
        = ["out/OSX/Foo/Foo.swift"] :=
  ⟨by rfl, by rfl, by rfl⟩

/-- Claim C1 (amended): an SDK in the requested list that has no entry in
the static table and no explicit override (and whose SDK queries succeed,
so that the lookup is reached) makes job construction raise an uncaught
`KeyError` that aborts the whole run: the run ends in the crashed state and
no dump file is written for any SDK. -/
theorem C1_unmapped_sdk_aborts_run (env : Env) (ide : String) (sw3 : Bool)
    (sdks : List String) (module out : String) (q : Bool) (s : String)
    (hs : s ∈ sdks) (hmap : DEFAULT_TARGET_BASED_ON_SDK s = none)
    (hp : (env.showSdkPath s).1 = 0) (hv : (env.showSdkVersion s).1 = 0) :
    (main_actions env ide sw3 sdks module "" out q).2 = true
      ∧ ∀ f c, Action.writeFile f c ∉ (main_actions env ide sw3 sdks module "" out q).1 := by
  obtain ⟨e, he⟩ := build_unmapped_error env (cmd_common_args ide source_filename)
    (extra_args_for sw3) module source_filename out q sdks s hs hmap hp hv
  constructor
  · unfold main_actions
    rw [he]
  intro f c hmem
  unfold main_actions at hmem
  simp only [he] at hmem
  rcases List.mem_cons.mp hmem with h1 | h2
  · exact Action.noConfusion h1
  · rcases build_tr_shape env (cmd_common_args ide source_filename) (extra_args_for sw3)
        module "" source_filename out q sdks _ h2 with ⟨s2, _, h | h⟩ | ⟨m, h⟩ <;>
      exact Action.noConfusion h

/-- Witness for C1's amended theorem: "xros" is absent from the table. -/
theorem C1_unmapped_sdk_aborts_run_witness :
    (main_actions env0 "swift-ide-test" false ["macosx", "xros"] "" "" "out" false).2 = true :=
  (C1_unmapped_sdk_aborts_run env0 "swift-ide-test" false ["macosx", "xros"] "" "out" false
    "xros" (by decide) (by rfl) (by rfl) (by rfl)).1

/-- Claim C2: in an environment where the SDK-path query exits non-zero,
`collect_frameworks` returns the empty tuple and the caller's unpacking of
it raises an uncaught `ValueError` — the run crashes during job
construction (no jobs for any SDK, the remaining SDKs never processed)
instead of degrading to zero jobs for that SDK as the claim states. -/
theorem C2_sdk_query_failure_crashes_caller :
    (create_dump_module_api_args envFail (cmd_common_args "swift-ide-test" source_filename)
        (extra_args_for false) "macosx" "" "" source_filename "out" false).1
      = Except.error "ValueError: need more than 0 values to unpack"
      ∧ (main_actions envFail "swift-ide-test" false ["macosx", "iphoneos"] "" "" "out" false).2
        = true
      ∧ writtenFiles
          (main_actions envFail "swift-ide-test" false ["macosx", "iphoneos"] "" "" "out" false).1
        = [] :=
  ⟨by rfl, by rfl, by rfl⟩

/-- Claim C10: on every run that completes (job construction does not
crash), the first effect is touching the scratch file
"omit-needless-words.swift", before any job runs; the last is removing it,
after all jobs; every introspection command extends the common command,
which carries "-source-filename omit-needless-words.swift"; every other
spawned command is one of the two xcrun discovery queries for a requested
SDK; and every created directory and written file lies under the output
directory, so nothing outside the scratch file and the output tree is
modified. -/
theorem C10_scratch_file_frame (env : Env) (ide : String) (sw3 : Bool)
    (sdks : List String) (module target out : String) (q : Bool)
    (h : (main_actions env ide sw3 sdks module target out q).2 = false) :
    (main_actions env ide sw3 sdks module target out q).1.head?
        = some (Action.touch source_filename)
      ∧ (main_actions env ide sw3 sdks module target out q).1.getLast?
        = some (Action.rm source_filename)
      ∧ (∀ f, Action.touch f ∈ (main_actions env ide sw3 sdks module target out q).1 →
          f = source_filename)
      ∧ (∀ f, Action.rm f ∈ (main_actions env ide sw3 sdks module target out q).1 →
          f = source_filename)
      ∧ (∀ d, Action.mkdirp d ∈ (main_actions env ide sw3 sdks module target out q).1 →
          ∃ r, d = out ++ r)
      ∧ (∀ f c, Action.writeFile f c ∈ (main_actions env ide sw3 sdks module target out q).1 →
          (∃ r, f = out ++ r) ∧ ∃ t, c = cmd_common_args ide source_filename ++ t)
      ∧ (∀ c, Action.runCmd c ∈ (main_actions env ide sw3 sdks module target out q).1 →
          (∃ t, c = cmd_common_args ide source_filename ++ t)
            ∨ ∃ s, s ∈ sdks ∧ (c = xcrun_path_cmd s ∨ c = xcrun_version_cmd s)) := by
  rcases hb : (build_jobs_tr env (cmd_common_args ide source_filename) (extra_args_for sw3)
      module target source_filename out q sdks).1 with e | jobs
  · exfalso
    unfold main_actions at h
    simp only [hb] at h
    exact Bool.noConfusion h
  · have hacts : (main_actions env ide sw3 sdks module target out q).1
        = (Action.touch source_filename
            :: ((build_jobs_tr env (cmd_common_args ide source_filename) (extra_args_for sw3)
                  module target source_filename out q sdks).2
                ++ jobs.flatMap (dump_module_api_actions env)))
          ++ [Action.rm source_filename] := by
      unfold main_actions
      rw [hb]
    have hsplit : ∀ a ∈ (main_actions env ide sw3 sdks module target out q).1,
        a = Action.touch source_filename ∨ a = Action.rm source_filename
          ∨ a ∈ (build_jobs_tr env (cmd_common_args ide source_filename) (extra_args_for sw3)
                  module target source_filename out q sdks).2
          ∨ ∃ job, job ∈ jobs ∧ a ∈ dump_module_api_actions env job := by
      intro a ha
      rw [hacts] at ha
      rcases List.mem_append.mp ha with h1 | h2
      · rcases List.mem_cons.mp h1 with hA | hB
        · exact Or.inl hA
        · rcases List.mem_append.mp hB with hC | hD
          · exact Or.inr (Or.inr (Or.inl hC))
          · obtain ⟨job, hjob, hd⟩ := List.mem_flatMap.mp hD
            exact Or.inr (Or.inr (Or.inr ⟨job, hjob, hd⟩))
      · exact Or.inr (Or.inl (List.mem_singleton.mp h2))
    have hjobshape := build_ok_job_shape env (cmd_common_args ide source_filename)
      (extra_args_for sw3) module target source_filename out q sdks jobs hb
    refine ⟨?_, ?_, ?_, ?_, ?_, ?_, ?_⟩
    · rw [hacts]
      rfl
    · rw [hacts, List.getLast?_append_of_ne_nil _ (by simp)]
      rfl
    · intro f hf
      rcases hsplit _ hf with hA | hA | hA | ⟨job, hjob, hd⟩
      · rw [Action.touch.injEq] at hA
        exact hA
      · exact Action.noConfusion hA
      · rcases build_tr_shape env (cmd_common_args ide source_filename) (extra_args_for sw3)
            module target source_filename out q sdks _ hA
            with ⟨s2, _, hE | hE⟩ | ⟨m, hE⟩ <;> exact Action.noConfusion hE
      · rcases dump_actions_shape env job _ hd with hE | ⟨m, hE⟩ | hE | ⟨nm, ex, hE⟩ <;>
          exact Action.noConfusion hE
    · intro f hf
      rcases hsplit _ hf with hA | hA | hA | ⟨job, hjob, hd⟩
      · exact Action.noConfusion hA
      · rw [Action.rm.injEq] at hA
        exact hA
      · rcases build_tr_shape env (cmd_common_args ide source_filename) (extra_args_for sw3)
            module target source_filename out q sdks _ hA
            with ⟨s2, _, hE | hE⟩ | ⟨m, hE⟩ <;> exact Action.noConfusion hE
      · rcases dump_actions_shape env job _ hd with hE | ⟨m, hE⟩ | hE | ⟨nm, ex, hE⟩ <;>
          exact Action.noConfusion hE
    · intro d hd0
      rcases hsplit _ hd0 with hA | hA | hA | ⟨job, hjob, hd⟩
      · exact Action.noConfusion hA
      · exact Action.noConfusion hA
      · rcases build_tr_shape env (cmd_common_args ide source_filename) (extra_args_for sw3)
            module target source_filename out q sdks _ hA
            with ⟨s2, _, hE | hE⟩ | ⟨m, hE⟩ <;> exact Action.noConfusion hE
      · obtain ⟨⟨root, st, hcmd⟩, hea, s2, hs2, hod⟩ := hjobshape job hjob
        rcases dump_actions_shape env job _ hd with hE | ⟨m, hE⟩ | hE | ⟨nm, ex, hE⟩
        · exact Action.noConfusion hE
        · exact Action.noConfusion hE
        · rw [Action.mkdirp.injEq] at hE
          refine ⟨"/" ++ pretty_sdk_name s2 ++ "/" ++ job.module, ?_⟩
          rw [hE, hod]
          simp [String.append_assoc]
        · exact Action.noConfusion hE
    · intro f c hf
      rcases hsplit _ hf with hA | hA | hA | ⟨job, hjob, hd⟩
      · exact Action.noConfusion hA
      · exact Action.noConfusion hA
      · rcases build_tr_shape env (cmd_common_args ide source_filename) (extra_args_for sw3)
            module target source_filename out q sdks _ hA
            with ⟨s2, _, hE | hE⟩ | ⟨m, hE⟩ <;> exact Action.noConfusion hE
      · obtain ⟨⟨root, st, hcmd⟩, hea, s2, hs2, hod⟩ := hjobshape job hjob
        rcases dump_actions_shape env job _ hd with hE | ⟨m, hE⟩ | hE | ⟨nm, ex, hE⟩
        · exact Action.noConfusion hE
        · exact Action.noConfusion hE
        · exact Action.noConfusion hE
        · rw [Action.writeFile.injEq] at hE
          obtain ⟨hf2, hc2⟩ := hE
          constructor
          · refine ⟨"/" ++ pretty_sdk_name s2 ++ "/" ++ job.module ++ "/" ++ nm ++ ".swift", ?_⟩
            rw [hf2, hod]
            simp [String.append_assoc]
          · refine ⟨["-sdk", root, "-target", st] ++ job.extra_args ++ ex, ?_⟩
            rw [hc2, hcmd]
            simp [List.append_assoc]
    · intro c hc0
      rcases hsplit _ hc0 with hA | hA | hA | ⟨job, hjob, hd⟩
      · exact Action.noConfusion hA
      · exact Action.noConfusion hA
      · rcases build_tr_shape env (cmd_common_args ide source_filename) (extra_args_for sw3)
            module target source_filename out q sdks _ hA
            with ⟨s2, hs2, hE | hE⟩ | ⟨m, hE⟩
        · rw [Action.runCmd.injEq] at hE
          exact Or.inr ⟨s2, hs2, Or.inl hE⟩
        · rw [Action.runCmd.injEq] at hE
          exact Or.inr ⟨s2, hs2, Or.inr hE⟩
        · exact Action.noConfusion hE
      · obtain ⟨⟨root, st, hcmd⟩, hea, s2, hs2, hod⟩ := hjobshape job hjob
        rcases dump_actions_shape env job _ hd with hE | ⟨m, hE⟩ | hE | ⟨nm, ex, hE⟩
        · rw [Action.runCmd.injEq] at hE
          refine Or.inl ⟨["-sdk", root, "-target", st] ++ submodule_query_args job.module, ?_⟩
          rw [hE, hcmd]
          simp [List.append_assoc]
        · exact Action.noConfusion hE
        · exact Action.noConfusion hE
        · exact Action.noConfusion hE

/-- Witness for C10's theorem: a completing run in the sample environment. -/
theorem C10_scratch_file_frame_witness :
    (main_actions env0 "swift-ide-test" false ["macosx"] "" "" "out" false).1.head?
        = some (Action.touch source_filename)
      ∧ (main_actions env0 "swift-ide-test" false ["macosx"] "" "" "out" false).1.getLast?
        = some (Action.rm source_filename) := by
  have h := C10_scratch_file_frame env0 "swift-ide-test" false ["macosx"] "" "" "out" false
    (by rfl)
  exact ⟨h.1, h.2.1⟩

end OmitNeedlessWords
